import Mathlib

/-!
Shallow embedding of the email retrieval and delivery subsystem of the
auto email agent: Python string primitives, the message codec
(src/tools/email/email_parser.py), the retry combinator and SMTP session
construction (src/tools/email/connection_manager.py), and the IMAP/SMTP
client operations (src/tools/email/imap_smtp_client.py).

Impure ingredients are made explicit: the random identifier drawn by
str(uuid.uuid4()) is a `fresh` parameter (one run of the Python function is
one choice of `fresh`), the BeautifulSoup html-to-text conversion is a
function parameter `h2t`, and server interactions are an environment record
whose fields give the outcome of each network call. Exceptions are modelled
with an explicit result type. Strings are modelled over ASCII text.
-/

namespace AutoEmail

/-- ASCII whitespace as recognized by Python str.split and str.strip. -/
def isPyWs (c : Char) : Bool :=
  c = ' ' || c = '\t' || c = '\n' || c = '\r' || c = '\x0b' || c = '\x0c'

/-- Remove trailing characters satisfying p: the right half of Python strip. -/
def rstripList (p : Char → Bool) : List Char → List Char
  | [] => []
  | c :: cs =>
    match rstripList p cs with
    | [] => if p c then [] else [c]
    | r => c :: r

/-- Python s.strip(chars): leading and trailing characters from the set
described by p are removed. -/
def pyStripSet (p : Char → Bool) (s : String) : String :=
  ⟨rstripList p (s.data.dropWhile p)⟩

/-- Python s.strip() with no argument: whitespace removed at both ends. -/
def pyStrip (s : String) : String := pyStripSet isPyWs s

/-- Python s.strip with the two angle bracket characters as the set. -/
def stripAngles (s : String) : String :=
  pyStripSet (fun c => c = '<' || c = '>') s

/-- Python s.split() with no argument: maximal non-whitespace runs, in
order, with no empty tokens. -/
def splitWsList : List Char → List String
  | [] => []
  | c :: cs =>
    if isPyWs c then splitWsList cs
    else
      String.mk (c :: cs.takeWhile (fun x => !(isPyWs x))) ::
        splitWsList (cs.dropWhile (fun x => !(isPyWs x)))
termination_by l => l.length
decreasing_by
  · simp only [List.length_cons]; omega
  · simp only [List.length_cons]
    have h : (cs.dropWhile (fun x => !(isPyWs x))).length ≤ cs.length :=
      (List.dropWhile_suffix _).length_le
    omega

/-- String form of the whitespace split. -/
def pySplitWs (s : String) : List String := splitWsList s.data

/-- ASCII lowering of one character, as Python str.lower acts on ASCII. -/
def asciiLowerChar (c : Char) : Char :=
  if 'A' ≤ c && c ≤ 'Z' then Char.ofNat (c.toNat + 32) else c

/-- ASCII lowering of a string. -/
def asciiLower (s : String) : String := ⟨s.data.map asciiLowerChar⟩

/-- Python substring containment, needle in hay. -/
def containsSub (needle hay : String) : Bool :=
  decide (needle.data <:+: hay.data)

/-! Raw transport messages, as handed to EmailParser. -/

/-- One part of a multipart message, as visited by message.walk(): content
type, Content-Disposition header rendered as a string (empty when absent),
and the result of get_payload(decode=True).decode(charset, errors=ignore) —
none when that raised (unknown charset, undecodable payload object). -/
structure MsgPart where
  contentType : String
  contentDisposition : String
  decoded : Option String

/-- The body of a raw message: either multipart (the walk sequence of the
parts) or a single part (content type, decoded payload when decoding
succeeded, and str(get_payload()) as the raw fallback value). -/
inductive MsgBody where
  | multipart (parts : List MsgPart)
  | single (contentType : String) (decoded : Option String) (rawPayload : String)

/-- A raw transport message: headers in transport order (name, value) and
a body. Header values model the transport-decoded strings. -/
structure RawMessage where
  headers : List (String × String)
  body : MsgBody

/-- Python Message.get(name, default): the first header whose name matches
case-insensitively; none when absent (the default fills in at use sites). -/
def msgGet (m : RawMessage) (name : String) : Option String :=
  (m.headers.find? (fun p => asciiLower p.1 = asciiLower name)).map (fun p => p.2)

/-- The headers dict of extract_email_info: names lowered, a later
occurrence of a name overwrites an earlier one; looked up by a key that the
source already writes in lowercase. -/
def headersGet (m : RawMessage) (key : String) : Option String :=
  (m.headers.reverse.find? (fun p => asciiLower p.1 = key)).map (fun p => p.2)

/-! A miniature backtracking regular expression engine, enough for the four
patterns re.sub applies in EmailParser._clean_body_text. -/

/-- One regex token: a literal character, or a greedy star / plus over a
character class. -/
inductive RTok where
  | lit (c : Char)
  | star (p : Char → Bool)
  | plus (p : Char → Bool)

/-- Remainders of s after consuming k characters of the class p, for k from
the maximal run length down to zero: the order a greedy quantifier tries. -/
def starSplits (p : Char → Bool) (s : List Char) : List (List Char) :=
  ((List.range ((s.takeWhile p).length + 1)).reverse).map (fun k => s.drop k)

/-- Backtracking match of a token sequence against a prefix of the input,
greedy quantifiers trying longest first; returns the remainder after the
match Python re would pick (the patterns used have no alternation). -/
def reMatch : List RTok → List Char → Option (List Char)
  | [], s => some s
  | .lit c :: ts, s =>
    match s with
    | [] => none
    | x :: xs => if x = c then reMatch ts xs else none
  | .star p :: ts, s => (starSplits p s).findSome? (reMatch ts)
  | .plus p :: ts, s =>
    match s with
    | [] => none
    | x :: xs => if p x then (starSplits p xs).findSome? (reMatch ts) else none

/-- Python re.sub scan: replace each leftmost non-overlapping match, left to
right. Every pattern used consumes at least one character; the fuel equals
the input length plus one, so it never runs out. -/
def reSubGo (ts : List RTok) (repl : List Char) : ℕ → List Char → List Char
  | 0, s => s
  | _ + 1, [] => []
  | fuel + 1, c :: cs =>
    match reMatch ts (c :: cs) with
    | some rest =>
      if rest.length < cs.length + 1 then repl ++ reSubGo ts repl fuel rest
      else c :: reSubGo ts repl fuel cs
    | none => c :: reSubGo ts repl fuel cs

/-- Python re.sub(pattern, repl, s) for the patterns of _clean_body_text. -/
def reSub (ts : List RTok) (repl : String) (s : String) : String :=
  ⟨reSubGo ts repl.data (s.data.length + 1) s.data⟩

/-- The pattern of a carriage return followed by a line feed. -/
def patCrLf : List RTok := [.lit '\r', .lit '\n']

/-- The pattern of a lone carriage return. -/
def patCr : List RTok := [.lit '\r']

/-- The blank-line collapsing pattern: newline, whitespace, newline,
whitespace, then one or more newlines. -/
def patBlankRun : List RTok :=
  [.lit '\n', .star isPyWs, .lit '\n', .star isPyWs, .plus (fun c => c = '\n')]

/-- The horizontal whitespace run pattern: one or more spaces or tabs. -/
def patHWs : List RTok := [.plus (fun c => c = ' ' || c = '\t')]

/-! The message codec, EmailParser (src/tools/email/email_parser.py). -/

/-- EmailParser._clean_body_text: normalize line endings, reduce runs of
blank lines, collapse horizontal whitespace, and strip the ends. -/
def clean_body_text (text : String) : String :=
  if text = "" then ""
  else
    let t1 := reSub patCrLf "\n" text
    let t2 := reSub patCr "\n" t1
    let t3 := reSub patBlankRun "\n\n" t2
    let t4 := reSub patHWs " " t3
    pyStrip t4

/-- The multipart walk of EmailParser.extract_body: skip attachment parts,
break on the first decodable text/plain part, convert the first text/html
part through `h2t` (the BeautifulSoup-backed _extract_text_from_html,
an external library call passed as a function) while the body is empty. -/
def walkParts (h2t : String → String) : List MsgPart → String → String
  | [], body => body
  | p :: ps, body =>
    if containsSub "attachment" p.contentDisposition then walkParts h2t ps body
    else if p.contentType = "text/plain" then
      match p.decoded with
      | some b => b
      | none => walkParts h2t ps body
    else if p.contentType = "text/html" && body = "" then
      match p.decoded with
      | some hb => walkParts h2t ps (h2t hb)
      | none => walkParts h2t ps body
    else walkParts h2t ps body

/-- EmailParser.extract_body: multipart walk or single-part decode (with
str(get_payload()) as the fallback when decoding raised), then cleanup. -/
def extract_body (h2t : String → String) (m : RawMessage) : String :=
  let body :=
    match m.body with
    | .multipart parts => walkParts h2t parts ""
    | .single ct decoded raw =>
      match decoded with
      | some b => if ct = "text/html" then h2t b else b
      | none => raw
  clean_body_text body

/-- EmailParser._generate_thread_id. The draw of str(uuid.uuid4()) is the
parameter `fresh`: one run of the Python function is one choice of fresh. -/
def generate_thread_id (m : RawMessage) (fresh : String) : String :=
  let in_reply_to := pyStrip ((msgGet m "In-Reply-To").getD "")
  let references := pyStrip ((msgGet m "References").getD "")
  let message_id := pyStrip ((msgGet m "Message-ID").getD "")
  if in_reply_to ≠ "" then
    stripAngles in_reply_to
  else
    let fromRefs : Option String :=
      if references ≠ "" then
        match pySplitWs references with
        | r :: _ => some (stripAngles r)
        | [] => none
      else none
    match fromRefs with
    | some t => t
    | none => if message_id ≠ "" then stripAngles message_id else fresh

/-- The Gmail-format record returned by EmailParser.extract_email_info. -/
structure EmailInfo where
  id : String
  threadId : String
  messageId : String
  references : String
  sender : String
  subject : String
  body : String
  date : String
deriving DecidableEq

/-- EmailParser.extract_email_info: header projection with sentinel
defaults, thread id derivation, and body extraction. -/
def extract_email_info (h2t : String → String) (m : RawMessage)
    (msgId : String) (fresh : String) : EmailInfo :=
  { id := msgId
    threadId := generate_thread_id m fresh
    messageId := (headersGet m "message-id").getD ""
    references := (headersGet m "references").getD ""
    sender := (headersGet m "from").getD "Unknown"
    subject := (headersGet m "subject").getD "No Subject"
    body := extract_body h2t m
    date := (headersGet m "date").getD "" }

/-- Modelled from the spec: the Email value object (src/state.py is not in
the source snapshot; the spec's data-model section lists the exact field
set id, threadId, messageId, references, sender, subject, body, date, all
normalized strings). -/
structure Email where
  id : String
  threadId : String
  messageId : String
  references : String
  sender : String
  subject : String
  body : String
  date : String
deriving DecidableEq

/-- The reply message assembled by EmailParser.create_reply_message: the
headers set on the MIMEMultipart container (a header is none when never
assigned) and the two attached body parts. -/
structure ReplyMessage where
  toAddr : String
  fromAddr : String
  subject : String
  inReplyTo : Option String
  references : Option String
  messageId : Option String
  textBody : String
  htmlBody : String
deriving DecidableEq

/-- Python s.startswith(piece). -/
def containsAtStart (s piece : String) : Bool := piece.data.isPrefixOf s.data

/-- Python s.split(sep) over the character list for a one-character
separator: splits at every occurrence, keeping empty pieces, and yields
one piece even for the empty input. -/
def pySplitChar (sep : Char) : List Char → List (List Char)
  | [] => [[]]
  | c :: cs =>
    let r := pySplitChar sep cs
    if c = sep then [] :: r
    else
      match r with
      | [] => [[c]]
      | t :: ts => (c :: t) :: ts

/-- Python s.split with the at-sign separator, as strings. -/
def pySplitAt (s : String) : List String := (pySplitChar '@' s.data).map String.mk

/-- EmailParser._extract_email_address: parseaddr (an external stdlib
call, passed as the function `parseAddr` returning the display-name and
address pair) with the raw sender string as the fallback. -/
def extract_email_address (parseAddr : String → String × String)
    (senderString : String) : String :=
  let addr := (parseAddr senderString).2
  if addr ≠ "" then addr else senderString

/-- EmailParser.create_reply_message. `parseAddr` models
email.utils.parseaddr and `fresh` the draw of uuid.uuid4(); the result is
none when the Python code raises (sender_email.split at the Message-ID
line has no index 1 when the sender address has no at sign). -/
def create_reply_message (parseAddr : String → String × String)
    (originalEmail : Email) (replyText : String) (senderEmail : String)
    (sendMode : Bool) (fresh : String) : Option ReplyMessage :=
  let recipient := extract_email_address parseAddr originalEmail.sender
  let subject :=
    if !(containsAtStart (asciiLower originalEmail.subject) "re:") then
      "Re: " ++ originalEmail.subject
    else originalEmail.subject
  let threading : Option String × Option String :=
    if originalEmail.messageId ≠ "" then
      (some originalEmail.messageId,
        some (pyStrip (originalEmail.references ++ " " ++ originalEmail.messageId)))
    else (none, none)
  let messageId? : Option (Option String) :=
    if sendMode then
      match pySplitAt senderEmail with
      | _ :: domain :: _ => some (some ("<" ++ fresh ++ "@" ++ domain ++ ">"))
      | _ => none
    else some none
  match messageId? with
  | none => none
  | some mid =>
    some
      { toAddr := recipient
        fromAddr := senderEmail
        subject := subject
        inReplyTo := threading.1
        references := threading.2
        messageId := mid
        textBody := replyText
        htmlBody := replyText.replace "\n" "<br>\n" }

/-! The connection manager (src/tools/email/connection_manager.py). -/

/-- The outcome of a Python call: a value, or a raised exception. -/
inductive PyResult (α : Type u) (ε : Type v) where
  | ok (a : α)
  | exc (e : ε)
deriving DecidableEq

/-- What one run of a wrapped operation produced under
EmailConnectionManager.retry_on_failure: how many times the operation was
invoked, the sleeps performed between attempts (in seconds, in order), and
the value returned or exception raised to the caller. -/
structure RetryOutcome (α : Type u) (ε : Type v) where
  calls : ℕ
  waits : List ℚ
  result : PyResult α ε
deriving DecidableEq

/-- The loop body of retry_on_failure, at a given attempt index with a
given number of attempts remaining (the loop runs for attempt in
range(max_retries + 1), so the remaining count starts positive and the
zero case is unreachable). A retryable exception on a non-final attempt
sleeps backoff_factor ** attempt and continues; on the final attempt the
loop ends and the last exception is re-raised. A non-retryable exception
propagates out of the wrapper at once. -/
def retryGo [Inhabited ε] (op : ℕ → PyResult α ε) (retryable : ε → Bool)
    (backoff : ℚ) : (attempt : ℕ) → (remaining : ℕ) → RetryOutcome α ε
  | _, 0 => ⟨0, [], .exc default⟩
  | attempt, r + 1 =>
    match op attempt with
    | .ok a => ⟨1, [], .ok a⟩
    | .exc e =>
      if retryable e then
        match r with
        | 0 => ⟨1, [], .exc e⟩
        | r' + 1 =>
          let rest := retryGo op retryable backoff (attempt + 1) (r' + 1)
          ⟨rest.calls + 1, backoff ^ attempt :: rest.waits, rest.result⟩
      else ⟨1, [], .exc e⟩

/-- EmailConnectionManager.retry_on_failure around one operation. `op k` is
the outcome of the operation at its k-th invocation (the operation is
impure, so its outcome may vary between invocations); `retryable` decides
membership in the configured exception tuple. The manager defaults are
max_retries = 3, backoff_factor = 2. -/
def retry_on_failure [Inhabited ε] (maxRetries : ℕ) (backoff : ℚ)
    (retryable : ε → Bool) (op : ℕ → PyResult α ε) : RetryOutcome α ε :=
  retryGo op retryable backoff 0 (maxRetries + 1)

/-- The exception taxonomy of the client layer, by type only (messages
elided; the code never branches on a message). -/
inductive PyExc where
  | connectionFailure
  | authenticationFailure
  | imap4Failure
  | indexFailure
  | otherFailure
deriving DecidableEq, Inhabited

/-- One observable step of EmailConnectionManager.create_smtp_connection,
in the order performed. -/
inductive SmtpEv where
  | connectSSL
  | connectPlain
  | ehlo
  | starttlsAttempt
  | starttlsRelaxedAttempt
  | loginAttempt
deriving DecidableEq

/-- The write-side provider configuration fields create_smtp_connection
reads. -/
structure SmtpConfig where
  smtpPort : ℕ
  useStarttls : Bool

/-- The server-side outcomes of the network calls create_smtp_connection
makes: whether each raises. Login distinguishes the authentication
rejection (SMTPAuthenticationError) from other failures. -/
structure SmtpEnv where
  connectFails : Bool
  firstEhloFails : Bool
  starttlsStdFails : Bool
  starttlsRelaxedFails : Bool
  secondEhloFails : Bool
  loginAuthRejected : Bool
  loginOtherFails : Bool
deriving DecidableEq

/-- EmailConnectionManager.create_smtp_connection: the trace of steps
attempted, and the final outcome. Port 465 opens SMTP_SSL directly;
otherwise a plain session is opened. An EHLO is sent; when use_starttls is
set and the port is not 465, a standard STARTTLS is attempted, a failure
there is answered by exactly one relaxed-verification retry, and a second
EHLO follows the upgrade. The outer handler turns transport-level failures
into ConnectionError and lets AuthenticationError through. -/
def create_smtp_connection (config : SmtpConfig) (env : SmtpEnv) :
    List SmtpEv × PyResult Unit PyExc :=
  let connectEv := if config.smtpPort = 465 then SmtpEv.connectSSL else SmtpEv.connectPlain
  if env.connectFails then ([connectEv], .exc .connectionFailure)
  else
    let tr1 := [connectEv, SmtpEv.ehlo]
    if env.firstEhloFails then (tr1, .exc .connectionFailure)
    else
      let afterTls : List SmtpEv × Bool :=
        if config.useStarttls && config.smtpPort ≠ 465 then
          if !env.starttlsStdFails then (tr1 ++ [SmtpEv.starttlsAttempt], true)
          else if !env.starttlsRelaxedFails then
            (tr1 ++ [SmtpEv.starttlsAttempt, SmtpEv.starttlsRelaxedAttempt], true)
          else (tr1 ++ [SmtpEv.starttlsAttempt, SmtpEv.starttlsRelaxedAttempt], false)
        else (tr1, true)
      if !afterTls.2 then (afterTls.1, .exc .connectionFailure)
      else
        let didTls := config.useStarttls && config.smtpPort ≠ 465
        let tr2 := afterTls.1 ++ if didTls then [SmtpEv.ehlo] else []
        if didTls && env.secondEhloFails then (tr2, .exc .connectionFailure)
        else
          let tr3 := tr2 ++ [SmtpEv.loginAttempt]
          if env.loginAuthRejected then (tr3, .exc .authenticationFailure)
          else if env.loginOtherFails then (tr3, .exc .connectionFailure)
          else (tr3, .ok ())

/-! The IMAP/SMTP client (src/tools/email/imap_smtp_client.py). -/

/-- Python slicing l[-m:] for a non-negative m: -0 is 0, so m = 0 keeps
the whole list; otherwise the last m elements (all of them when m exceeds
the length, with truncated subtraction doing the clamping). -/
def pyNegSlice (l : List α) (m : ℕ) : List α :=
  if m = 0 then l else l.drop (l.length - m)

/-- The handle_email_errors decorator: a value passes through, any
exception (authentication, connection, unexpected) becomes a printed
diagnostic and a None return. -/
def handleEmailErrors : PyResult α ε → Option α
  | .ok a => some a
  | .exc _ => none

/-- IMAPSMTPClient._thread_has_draft_reply: stubbed to always report no
existing draft. -/
def thread_has_draft_reply (_threadId : String) : Bool := false

/-- IMAPSMTPClient._should_skip_email: skip when the client's own address
occurs in the sender field, or when the thread id is non-empty and the
thread already has a draft reply (the stub makes the second arm inert). -/
def should_skip_email (ownAddress : String) (info : EmailInfo) : Bool :=
  if containsSub ownAddress info.sender then true
  else if info.threadId ≠ "" && thread_has_draft_reply info.threadId then true
  else false

/-- The server-side outcomes of one fetch_unanswered_emails run: whether
the client was connected, what connect() returns when called (connect
never raises: its body catches every exception and returns false), the
outcomes of acquiring the pooled session, selecting the inbox and
searching, and per message id the fetched raw message (none models a bad
fetch status or missing data, an exception models a raised error) together
with the uuid draw its decode would use. -/
structure FetchEnv where
  connected : Bool
  connectOk : Bool
  getConn : PyResult Unit PyExc
  selectInbox : PyResult Unit PyExc
  search : PyResult (String × String) PyExc
  fetchMsg : String → PyResult (Option RawMessage) PyExc
  freshFor : String → String

/-- IMAPSMTPClient._get_email_info: fetch the message data, parse it and
extract the Gmail-format record; any failure yields None (its body is one
try/except). -/
def get_email_info (h2t : String → String) (env : FetchEnv)
    (emailId : String) : Option EmailInfo :=
  match env.fetchMsg emailId with
  | .exc _ => none
  | .ok none => none
  | .ok (some raw) => some (extract_email_info h2t raw emailId (env.freshFor emailId))

/-- The per-id loop of fetch_unanswered_emails: decode each id, keep the
record when decoding produced one and the filter does not skip it;
per-message errors are contained by the loop body's try/except. -/
def processIds (h2t : String → String) (ownAddress : String)
    (env : FetchEnv) : List String → List EmailInfo
  | [] => []
  | i :: is =>
    match get_email_info h2t env i with
    | some info =>
      if should_skip_email ownAddress info then processIds h2t ownAddress env is
      else info :: processIds h2t ownAddress env is
    | none => processIds h2t ownAddress env is

/-- The try block of fetch_unanswered_emails: acquire the session, select
the inbox, search; a bad search status or an empty id string returns the
empty list; otherwise the last max_results ids are processed most recent
first. -/
def fetchTry (h2t : String → String) (ownAddress : String) (env : FetchEnv)
    (maxResults : ℕ) : PyResult (List EmailInfo) PyExc :=
  match env.getConn with
  | .exc e => .exc e
  | .ok _ =>
    match env.selectInbox with
    | .exc e => .exc e
    | .ok _ =>
      match env.search with
      | .exc e => .exc e
      | .ok (status, messages0) =>
        if status ≠ "OK" then .ok []
        else if messages0 = "" then .ok []
        else
          let emailIds := pySplitWs messages0
          .ok (processIds h2t ownAddress env (pyNegSlice emailIds maxResults).reverse)

/-- IMAPSMTPClient.fetch_unanswered_emails: connect lazily (returning the
empty list when the connection cannot be established), run the try block
with every exception inside it degraded to the empty list, under the
handle_email_errors decorator. -/
def fetch_unanswered_emails (h2t : String → String) (ownAddress : String)
    (env : FetchEnv) (maxResults : ℕ) : Option (List EmailInfo) :=
  handleEmailErrors <|
    if !env.connected && !env.connectOk then (.ok [] : PyResult (List EmailInfo) PyExc)
    else
      match fetchTry h2t ownAddress env maxResults with
      | .exc _ => .ok []
      | .ok l => .ok l

/-- The outcome of one imap_conn.select(folder) call: success, a raised
imaplib.IMAP4.error, or any other raised exception. -/
inductive SelectOutcome where
  | ok
  | imapErr
  | otherExc (e : PyExc)
deriving DecidableEq

/-- The server-side outcomes of one create_draft_reply run: connection
state as for fetch, the outcome of selecting each folder by name, and the
status string of (or exception raised by) the append to a given folder. -/
structure DraftEnv where
  connected : Bool
  connectOk : Bool
  getConn : PyResult Unit PyExc
  select : String → SelectOutcome
  append : String → PyResult String PyExc

/-- The folder selection of create_draft_reply: the configured drafts
folder; on an IMAP4.error the fixed alternates INBOX.Drafts,
[Gmail]/Drafts, Draft in order; the for-else falls back to selecting
INBOX. Only IMAP4.error is handled locally — any other exception, and an
IMAP4.error from the final INBOX select, propagate to the outer handler. -/
def tryAltFolders (env : DraftEnv) : List String → PyResult String PyExc
  | [] =>
    match env.select "INBOX" with
    | .ok => .ok "INBOX"
    | .imapErr => .exc .imap4Failure
    | .otherExc e => .exc e
  | f :: fs =>
    match env.select f with
    | .ok => .ok f
    | .imapErr => tryAltFolders env fs
    | .otherExc e => .exc e

/-- The dispatch on the configured folder in create_draft_reply. -/
def chooseDraftsFolder (env : DraftEnv) (configured : String) :
    PyResult String PyExc :=
  match env.select configured with
  | .ok => .ok configured
  | .otherExc e => .exc e
  | .imapErr => tryAltFolders env ["INBOX.Drafts", "[Gmail]/Drafts", "Draft"]

/-- IMAPSMTPClient.create_draft_reply: connect lazily (false when the
connection cannot be established), build the reply message in draft mode,
choose the drafts folder, append with the Draft flag, and report true
exactly on an OK append status; every exception in the try block becomes
false, under the handle_email_errors decorator. -/
def create_draft_reply (parseAddr : String → String × String)
    (initialEmail : Email) (replyText : String) (ownAddress : String)
    (configuredDrafts : String) (env : DraftEnv) : Option Bool :=
  handleEmailErrors <|
    if !env.connected && !env.connectOk then (.ok false : PyResult Bool PyExc)
    else
      let tryBlock : PyResult Bool PyExc :=
        match create_reply_message parseAddr initialEmail replyText ownAddress false "" with
        | none => .exc .indexFailure
        | some _msg =>
          match env.getConn with
          | .exc e => .exc e
          | .ok _ =>
            match chooseDraftsFolder env configuredDrafts with
            | .exc e => .exc e
            | .ok folder =>
              match env.append folder with
              | .exc e => .exc e
              | .ok status => .ok (status = "OK")
      match tryBlock with
      | .exc _ => .ok false
      | .ok b => .ok b

/-! Helper lemmas about the Python string primitives. -/

/-- The right strip keeps the head of the list when anything is kept. -/
theorem rstripList_head (p : Char → Bool) (l : List Char) (c : Char)
    (cs : List Char) (h : rstripList p l = c :: cs) : ∃ t, l = c :: t := by
  cases l with
  | nil => simp [rstripList] at h
  | cons x xs =>
    refine ⟨xs, ?_⟩
    rw [rstripList] at h
    rcases hr : rstripList p xs with _ | ⟨y, ys⟩ <;> rw [hr] at h
    · by_cases hp : p x
      · simp [hp] at h
      · simp [hp] at h
        rw [h.1]
    · rw [List.cons.injEq] at h
      rw [h.1]

/-- A right strip that empties the list had only characters of the set. -/
theorem rstripList_eq_nil (p : Char → Bool) (l : List Char)
    (h : rstripList p l = []) : ∀ c ∈ l, p c = true := by
  induction l with
  | nil => simp
  | cons x xs ih =>
    rw [rstripList] at h
    rcases hr : rstripList p xs with _ | ⟨y, ys⟩ <;> rw [hr] at h
    · by_cases hp : p x
      · intro c hc
        rcases List.mem_cons.mp hc with rfl | hmem
        · exact hp
        · exact ih hr c hmem
      · simp [hp] at h
    · simp at h

/-- The head of a non-empty dropWhile result fails the predicate. -/
theorem dropWhile_head_not (p : Char → Bool) (l : List Char) (c : Char)
    (cs : List Char) (h : l.dropWhile p = c :: cs) : p c = false := by
  induction l with
  | nil => simp [List.dropWhile] at h
  | cons x xs ih =>
    rw [List.dropWhile] at h
    by_cases hp : p x
    · simp [hp] at h
      exact ih h
    · simp [hp] at h
      rw [← h.1]
      simp [hp]

/-- A non-empty two-sided strip begins with a character outside the set. -/
theorem pyStripSet_head_not (p : Char → Bool) (s : String) (c : Char)
    (cs : List Char) (h : (pyStripSet p s).data = c :: cs) : p c = false := by
  unfold pyStripSet at h
  obtain ⟨t, ht⟩ := rstripList_head p _ c cs h
  exact dropWhile_head_not p s.data c t ht

/-- A strip that empties the string had only characters of the set. -/
theorem pyStripSet_eq_empty_all (p : Char → Bool) (s : String)
    (h : pyStripSet p s = "") : ∀ c ∈ s.data, p c = true := by
  intro c hc
  have hdata : rstripList p (s.data.dropWhile p) = [] := congrArg String.data h
  have hsplit : c ∈ s.data.takeWhile p ∨ c ∈ s.data.dropWhile p := by
    rw [← List.mem_append, List.takeWhile_append_dropWhile]
    exact hc
  rcases hsplit with hmem | hmem
  · exact List.mem_takeWhile_imp hmem
  · exact rstripList_eq_nil p _ hdata c hmem

/-- The whitespace split of a list headed by a non-whitespace character is
a cons whose head token starts at that character. -/
theorem splitWsList_cons_of_head (c : Char) (cs : List Char)
    (hc : isPyWs c = false) :
    splitWsList (c :: cs) =
      String.mk (c :: cs.takeWhile (fun x => !(isPyWs x))) ::
        splitWsList (cs.dropWhile (fun x => !(isPyWs x))) := by
  rw [splitWsList]
  simp [hc]

/-- The whitespace split of a non-empty stripped string is non-empty: its
first token exists. -/
theorem pySplitWs_of_stripped_ne (s : String) (h : pyStrip s ≠ "") :
    ∃ t rest, pySplitWs (pyStrip s) = t :: rest := by
  rcases hd : (pyStrip s).data with _ | ⟨c, cs⟩
  · exact absurd (String.ext hd) h
  · have hc := pyStripSet_head_not isPyWs s c cs hd
    refine ⟨String.mk (c :: cs.takeWhile (fun x => !(isPyWs x))),
      splitWsList (cs.dropWhile (fun x => !(isPyWs x))), ?_⟩
    unfold pySplitWs
    rw [hd, splitWsList_cons_of_head c cs hc]

/-! Claims about thread id derivation. -/

/-- C3: the decoded threadId follows the precedence chain: a non-empty
(trimmed) In-Reply-To wins and is stripped of angle brackets; else the
first whitespace token of a non-empty References (whose split is provably
non-empty, so the fall-through in the source is dead); else a non-empty
Message-ID stripped of angle brackets; else the freshly generated random
identifier. In particular a message with both In-Reply-To and References
set uses the stripped In-Reply-To. -/
theorem C3_threadId_precedence (m : RawMessage) (fresh : String) :
    (pyStrip ((msgGet m "In-Reply-To").getD "") ≠ "" →
      generate_thread_id m fresh =
        stripAngles (pyStrip ((msgGet m "In-Reply-To").getD ""))) ∧
    (pyStrip ((msgGet m "In-Reply-To").getD "") = "" →
      pyStrip ((msgGet m "References").getD "") ≠ "" →
      ∃ t rest,
        pySplitWs (pyStrip ((msgGet m "References").getD "")) = t :: rest ∧
        generate_thread_id m fresh = stripAngles t) ∧
    (pyStrip ((msgGet m "In-Reply-To").getD "") = "" →
      pyStrip ((msgGet m "References").getD "") = "" →
      pyStrip ((msgGet m "Message-ID").getD "") ≠ "" →
      generate_thread_id m fresh =
        stripAngles (pyStrip ((msgGet m "Message-ID").getD ""))) ∧
    (pyStrip ((msgGet m "In-Reply-To").getD "") = "" →
      pyStrip ((msgGet m "References").getD "") = "" →
      pyStrip ((msgGet m "Message-ID").getD "") = "" →
      generate_thread_id m fresh = fresh) := by
  refine ⟨?_, ?_, ?_, ?_⟩
  · intro h1
    simp [generate_thread_id, h1]
  · intro h1 h2
    obtain ⟨t, rest, hs⟩ := pySplitWs_of_stripped_ne _ h2
    exact ⟨t, rest, hs, by simp [generate_thread_id, h1, h2, hs]⟩
  · intro h1 h2 h3
    simp [generate_thread_id, h1, h2, h3]
  · intro h1 h2 h3
    simp [generate_thread_id, h1, h2, h3]

/-- The thread id does not depend on the fresh random draw as soon as one
of the three threading headers survives trimming. -/
theorem generate_thread_id_indep (m : RawMessage) (f1 f2 : String)
    (h : pyStrip ((msgGet m "In-Reply-To").getD "") ≠ "" ∨
         pyStrip ((msgGet m "References").getD "") ≠ "" ∨
         pyStrip ((msgGet m "Message-ID").getD "") ≠ "") :
    generate_thread_id m f1 = generate_thread_id m f2 := by
  by_cases h1 : pyStrip ((msgGet m "In-Reply-To").getD "") = ""
  · by_cases h2 : pyStrip ((msgGet m "References").getD "") = ""
    · have h3 : pyStrip ((msgGet m "Message-ID").getD "") ≠ "" := by
        rcases h with h | h | h
        · exact absurd h1 h
        · exact absurd h2 h
        · exact h
      simp [generate_thread_id, h1, h2, h3]
    · obtain ⟨t, rest, hs⟩ := pySplitWs_of_stripped_ne _ h2
      simp [generate_thread_id, h1, h2, hs]
  · simp [generate_thread_id, h1]

/-- C4 as stated is false: a message carrying none of the three threading
headers draws a fresh random identifier on each decode, so two runs of
extract_email_info on the same raw message and session-local id (whose
uuid draws differ, as the spec itself notes they do) disagree on
threadId. The input is concrete: a plain-text message with no headers. -/
theorem C4_counterexample :
    extract_email_info (fun s => s)
        ⟨[], .single "text/plain" (some "hello") "hello"⟩ "7"
        "0b8e2d44-1111-4222-8333-444455556666" ≠
      extract_email_info (fun s => s)
        ⟨[], .single "text/plain" (some "hello") "hello"⟩ "7"
        "9a1c7f00-7777-4888-9999-aaaabbbbcccc" := by
  decide

/-- C4 amended: decoding is deterministic whenever the message has at
least one threading header that survives trimming — the two runs then
agree on every field, threadId and normalized body included (the fresh
draw is the only impurity, and it is only consulted by the final
fallback). -/
theorem C4_amended_decode_deterministic (h2t : String → String)
    (m : RawMessage) (msgId f1 f2 : String)
    (h : pyStrip ((msgGet m "In-Reply-To").getD "") ≠ "" ∨
         pyStrip ((msgGet m "References").getD "") ≠ "" ∨
         pyStrip ((msgGet m "Message-ID").getD "") ≠ "") :
    extract_email_info h2t m msgId f1 = extract_email_info h2t m msgId f2 := by
  have hth := generate_thread_id_indep m f1 f2 h
  simp [extract_email_info, hth]

/-- C4 amended, witnessed at a message with a Message-ID header and two
distinct fresh draws. -/
theorem C4_amended_witness :
    extract_email_info (fun s => s)
        ⟨[("Message-ID", "<m@x>")], .single "text/plain" (some "hello") "hello"⟩
        "7" "0b8e2d44-1111-4222-8333-444455556666" =
      extract_email_info (fun s => s)
        ⟨[("Message-ID", "<m@x>")], .single "text/plain" (some "hello") "hello"⟩
        "7" "9a1c7f00-7777-4888-9999-aaaabbbbcccc" :=
  C4_amended_decode_deterministic (fun s => s)
    ⟨[("Message-ID", "<m@x>")], .single "text/plain" (some "hello") "hello"⟩
    "7" "0b8e2d44-1111-4222-8333-444455556666"
    "9a1c7f00-7777-4888-9999-aaaabbbbcccc" (by decide)

/-- C5 as stated is false: Python strip of the angle bracket set empties a
candidate that consists only of angle brackets, so a message whose
In-Reply-To header is the degenerate value of a bare bracket pair decodes
to an empty threadId — the fallback chain never reaches the fresh
identifier. -/
theorem C5_counterexample :
    (extract_email_info (fun s => s)
        ⟨[("In-Reply-To", "<>")], .single "text/plain" (some "hi") "hi"⟩ "1"
        "0b8e2d44-1111-4222-8333-444455556666").threadId = "" := by
  decide

/-- C5 amended: the decoded threadId is non-empty provided the selected
candidate does not consist entirely of angle brackets — that is, whenever
each of the trimmed In-Reply-To, first References token and Message-ID
values that exist keeps at least one character under bracket stripping
(the fresh fallback identifier, a rendered uuid4, is always non-empty). -/
theorem C5_amended_threadId_nonempty (h2t : String → String)
    (m : RawMessage) (msgId fresh : String)
    (hfresh : fresh ≠ "")
    (h1 : pyStrip ((msgGet m "In-Reply-To").getD "") ≠ "" →
      stripAngles (pyStrip ((msgGet m "In-Reply-To").getD "")) ≠ "")
    (h2 : pyStrip ((msgGet m "References").getD "") ≠ "" →
      ∀ t ∈ (pySplitWs (pyStrip ((msgGet m "References").getD ""))).take 1,
      stripAngles t ≠ "")
    (h3 : pyStrip ((msgGet m "Message-ID").getD "") ≠ "" →
      stripAngles (pyStrip ((msgGet m "Message-ID").getD "")) ≠ "") :
    (extract_email_info h2t m msgId fresh).threadId ≠ "" := by
  have hthread : (extract_email_info h2t m msgId fresh).threadId =
      generate_thread_id m fresh := rfl
  rw [hthread]
  by_cases hin : pyStrip ((msgGet m "In-Reply-To").getD "") = ""
  · by_cases href : pyStrip ((msgGet m "References").getD "") = ""
    · by_cases hmid : pyStrip ((msgGet m "Message-ID").getD "") = ""
      · simpa [generate_thread_id, hin, href, hmid] using hfresh
      · simpa [generate_thread_id, hin, href, hmid] using h3 hmid
    · obtain ⟨t, rest, hs⟩ := pySplitWs_of_stripped_ne _ href
      have ht : t ∈ (pySplitWs (pyStrip ((msgGet m "References").getD ""))).take 1 := by
        rw [hs]
        simp
      simpa [generate_thread_id, hin, href, hs] using h2 href t ht
  · simpa [generate_thread_id, hin] using h1 hin

/-- C5 amended, witnessed at a message whose only threading header is a
well-formed Message-ID. -/
theorem C5_amended_witness :
    (extract_email_info (fun s => s)
        ⟨[("Message-ID", "<m@x>")], .single "text/plain" (some "hi") "hi"⟩ "1"
        "0b8e2d44-1111-4222-8333-444455556666").threadId ≠ "" :=
  C5_amended_threadId_nonempty (fun s => s)
    ⟨[("Message-ID", "<m@x>")], .single "text/plain" (some "hi") "hi"⟩ "1"
    "0b8e2d44-1111-4222-8333-444455556666" (by decide) (by decide)
    (fun h => ((h (by decide)).elim)) (by decide)

/-! Claims about reply construction. -/

/-- C8: the encoded reply carries a Message-ID header exactly when built
in send mode; drafts have none, and in send mode the generated header is
the bracketed fresh token joined by an at sign to the domain part of the
sender address (index 1 of its at-sign split — which exists for any
address containing an at sign, the hypothesis below). -/
theorem C8_messageId_iff_send (parseAddr : String → String × String)
    (originalEmail : Email) (replyText senderEmail fresh : String)
    (h : 2 ≤ (pySplitAt senderEmail).length) :
    ∃ dm ds,
      create_reply_message parseAddr originalEmail replyText senderEmail true fresh =
        some dm ∧
      create_reply_message parseAddr originalEmail replyText senderEmail false fresh =
        some ds ∧
      ds.messageId = none ∧
      ∃ domain, dm.messageId = some ("<" ++ fresh ++ "@" ++ domain ++ ">") := by
  rcases hs : pySplitAt senderEmail with _ | ⟨a, _ | ⟨b, t⟩⟩
  · rw [hs] at h
    simp at h
  · rw [hs] at h
    simp at h
  · have hsend : ∃ dm,
        create_reply_message parseAddr originalEmail replyText senderEmail true fresh =
          some dm ∧ dm.messageId = some ("<" ++ fresh ++ "@" ++ b ++ ">") := by
      simp only [create_reply_message, hs]
      exact ⟨_, rfl, rfl⟩
    have hdraft : ∃ ds,
        create_reply_message parseAddr originalEmail replyText senderEmail false fresh =
          some ds ∧ ds.messageId = none := by
      simp only [create_reply_message]
      exact ⟨_, rfl, rfl⟩
    obtain ⟨dm, hdm, hdmid⟩ := hsend
    obtain ⟨ds, hds, hdsid⟩ := hdraft
    exact ⟨dm, ds, hdm, hds, hdsid, b, hdmid⟩

/-- C8 witnessed at a sender address with an at sign, in both modes. -/
theorem C8_messageId_witness :
    ∃ dm ds,
      create_reply_message (fun s => ("", s))
          ⟨"1", "t", "<m@x>", "", "bob@x.com", "Hi", "b", ""⟩
          "Thanks" "me@example.com" true "u-1" = some dm ∧
      create_reply_message (fun s => ("", s))
          ⟨"1", "t", "<m@x>", "", "bob@x.com", "Hi", "b", ""⟩
          "Thanks" "me@example.com" false "u-1" = some ds ∧
      ds.messageId = none ∧
      ∃ domain, dm.messageId = some ("<" ++ "u-1" ++ "@" ++ domain ++ ">") :=
  C8_messageId_iff_send (fun s => ("", s))
    ⟨"1", "t", "<m@x>", "", "bob@x.com", "Hi", "b", ""⟩
    "Thanks" "me@example.com" "u-1" (by decide)

/-- In draft mode the reply builder cannot raise: the Message-ID branch is
skipped, so a message is always produced. -/
theorem create_reply_message_draft_total (parseAddr : String → String × String)
    (originalEmail : Email) (replyText senderEmail fresh : String) :
    ∃ msg, create_reply_message parseAddr originalEmail replyText senderEmail
      false fresh = some msg := by
  simp only [create_reply_message]
  exact ⟨_, rfl⟩

/-- C9: the reply subject equals the original subject when that already
starts with the reply marker under the ASCII case-insensitive check, and
otherwise is the original subject with the marker and a space prepended —
so a subject already marked is never double-prefixed. -/
theorem C9_reply_subject (parseAddr : String → String × String)
    (originalEmail : Email) (replyText senderEmail : String) (sendMode : Bool)
    (fresh : String) (msg : ReplyMessage)
    (h : create_reply_message parseAddr originalEmail replyText senderEmail
      sendMode fresh = some msg) :
    (containsAtStart (asciiLower originalEmail.subject) "re:" = true →
      msg.subject = originalEmail.subject) ∧
    (containsAtStart (asciiLower originalEmail.subject) "re:" = false →
      msg.subject = "Re: " ++ originalEmail.subject) := by
  unfold create_reply_message at h
  rcases hm : (if sendMode then
      match pySplitAt senderEmail with
      | _ :: domain :: _ => some (some ("<" ++ fresh ++ "@" ++ domain ++ ">"))
      | _ => none
    else some none) with _ | mid
  · rw [hm] at h
    simp at h
  · rw [hm] at h
    simp only [Option.some.injEq] at h
    constructor
    · intro hre
      rw [← h]
      simp [hre]
    · intro hre
      rw [← h]
      simp [hre]

/-- C9 witnessed: replying to the subject of the spec's scenario, already
carrying the marker, keeps it unchanged. -/
theorem C9_reply_subject_witness :
    ∃ msg,
      create_reply_message (fun s => ("", s))
          ⟨"1", "t", "<m@x>", "", "bob@x.com", "Re: Meeting", "b", ""⟩
          "Thanks" "me@example.com" false "" = some msg ∧
      msg.subject = "Re: Meeting" := by
  refine ⟨_, rfl, ?_⟩
  exact (C9_reply_subject (fun s => ("", s))
      ⟨"1", "t", "<m@x>", "", "bob@x.com", "Re: Meeting", "b", ""⟩
      "Thanks" "me@example.com" false "" _ rfl).1 (by decide)

/-! Claims about the retry combinator. -/

/-- C2: under the manager defaults (3 retries, backoff factor 2), an
operation that raises a retryable error at every invocation is invoked
exactly 4 times, sleeps 2 to the power 0, 1, 2 seconds — that is 1s, 2s,
4s — before retries 1, 2, 3, and the error of the final attempt is what
the caller sees re-raised; an operation whose first invocation raises a
non-retryable error is invoked once, with no sleep, and that error
propagates at once. -/
theorem C2_retry_default_policy {α ε : Type} [Inhabited ε]
    (retryable : ε → Bool) (op opNR : ℕ → PyResult α ε) (e : ℕ → ε) (e0 : ε)
    (hop : ∀ k, k ≤ 3 → op k = .exc (e k))
    (hret : ∀ k, k ≤ 3 → retryable (e k) = true)
    (hopNR : opNR 0 = .exc e0) (hretNR : retryable e0 = false) :
    retry_on_failure 3 2 retryable op =
      ⟨4, [2 ^ 0, 2 ^ 1, 2 ^ 2], .exc (e 3)⟩ ∧
    retry_on_failure 3 2 retryable opNR = ⟨1, [], .exc e0⟩ := by
  constructor
  · have h0 := hop 0 (by norm_num)
    have h1 := hop 1 (by norm_num)
    have h2 := hop 2 (by norm_num)
    have h3 := hop 3 (by norm_num)
    have r0 := hret 0 (by norm_num)
    have r1 := hret 1 (by norm_num)
    have r2 := hret 2 (by norm_num)
    have r3 := hret 3 (by norm_num)
    simp [retry_on_failure, retryGo, h0, h1, h2, h3, r0, r1, r2, r3]
  · simp [retry_on_failure, retryGo, hopNR, hretNR]

/-- C2 witnessed with concrete operations over the client exception type:
connection failures are retryable, the other failure is not. -/
theorem C2_retry_default_policy_witness :
    retry_on_failure 3 2 (fun e : PyExc => e = .connectionFailure)
        (fun _ => (.exc .connectionFailure : PyResult Unit PyExc)) =
      ⟨4, [2 ^ 0, 2 ^ 1, 2 ^ 2], .exc .connectionFailure⟩ ∧
    retry_on_failure 3 2 (fun e : PyExc => e = .connectionFailure)
        (fun _ => (.exc .otherFailure : PyResult Unit PyExc)) =
      ⟨1, [], .exc .otherFailure⟩ :=
  C2_retry_default_policy (fun e : PyExc => e = .connectionFailure)
    (fun _ => .exc .connectionFailure) (fun _ => .exc .otherFailure)
    (fun _ => .connectionFailure) .otherFailure
    (fun _ _ => rfl) (fun _ _ => rfl) rfl rfl

/-! Claims about write-session creation. -/

/-- C7: a write port of 465 opens a direct-TLS session first and never
attempts STARTTLS, whatever the STARTTLS flag says; on any other port
with the flag set, the greeting is exchanged before the upgrade attempt
and again after a successful upgrade, a failed standard negotiation is
followed by exactly one relaxed-verification attempt, and when that also
fails the session creation gives up with a connection failure. -/
theorem C7_smtp_tls_policy (config : SmtpConfig) (env : SmtpEnv) :
    (config.smtpPort = 465 →
      SmtpEv.starttlsAttempt ∉ (create_smtp_connection config env).1 ∧
      SmtpEv.starttlsRelaxedAttempt ∉ (create_smtp_connection config env).1 ∧
      (create_smtp_connection config env).1.head? = some SmtpEv.connectSSL) ∧
    (config.smtpPort ≠ 465 → config.useStarttls = true →
      env.connectFails = false → env.firstEhloFails = false →
      ((env.starttlsStdFails = false →
        ((create_smtp_connection config env).1.take 4 =
          [SmtpEv.connectPlain, SmtpEv.ehlo, SmtpEv.starttlsAttempt,
            SmtpEv.ehlo])) ∧
      (env.starttlsStdFails = true → env.starttlsRelaxedFails = false →
        ((create_smtp_connection config env).1.take 5 =
          [SmtpEv.connectPlain, SmtpEv.ehlo, SmtpEv.starttlsAttempt,
            SmtpEv.starttlsRelaxedAttempt, SmtpEv.ehlo])) ∧
      (env.starttlsStdFails = true → env.starttlsRelaxedFails = true →
        (create_smtp_connection config env).1 =
          [SmtpEv.connectPlain, SmtpEv.ehlo, SmtpEv.starttlsAttempt,
            SmtpEv.starttlsRelaxedAttempt] ∧
        (create_smtp_connection config env).2 = .exc .connectionFailure))) := by
  obtain ⟨port, flag⟩ := config
  obtain ⟨cf, fe, ss, sr, se, la, lo⟩ := env
  constructor
  · intro h465
    subst h465
    cases cf <;> cases fe <;> cases ss <;> cases sr <;> cases se <;>
      cases la <;> cases lo <;> simp [create_smtp_connection]
  · intro hport hflag hcf hfe
    subst hflag
    subst hcf
    subst hfe
    refine ⟨?_, ?_, ?_⟩
    · intro hss
      subst hss
      cases sr <;> cases se <;> cases la <;> cases lo <;>
        simp [create_smtp_connection, hport]
    · intro hss hsr
      subst hss
      subst hsr
      cases se <;> cases la <;> cases lo <;>
        simp [create_smtp_connection, hport]
    · intro hss hsr
      subst hss
      subst hsr
      constructor <;> simp [create_smtp_connection, hport]

/-! Claims about fetching. -/

/-- C1: fetch_unanswered_emails never lets an exception out and never
returns anything but a list: whatever the environment, it returns some
list; and each failure mode — connection that cannot be established,
session acquisition or inbox selection or search raising, search
reporting a non-OK status, search matching nothing — yields the empty
list. -/
theorem C1_fetch_never_raises (h2t : String → String) (ownAddress : String)
    (env : FetchEnv) (maxResults : ℕ) :
    (∃ l, fetch_unanswered_emails h2t ownAddress env maxResults = some l) ∧
    (env.connected = false → env.connectOk = false →
      fetch_unanswered_emails h2t ownAddress env maxResults = some []) ∧
    (∀ e, env.getConn = .exc e →
      fetch_unanswered_emails h2t ownAddress env maxResults = some []) ∧
    (∀ e, env.selectInbox = .exc e →
      fetch_unanswered_emails h2t ownAddress env maxResults = some []) ∧
    (∀ e, env.search = .exc e →
      fetch_unanswered_emails h2t ownAddress env maxResults = some []) ∧
    (∀ status messages0, env.search = .ok (status, messages0) → status ≠ "OK" →
      fetch_unanswered_emails h2t ownAddress env maxResults = some []) ∧
    (∀ status, env.search = .ok (status, "") →
      fetch_unanswered_emails h2t ownAddress env maxResults = some []) := by
  obtain ⟨c, co, gc, si, se, fm, ff⟩ := env
  refine ⟨?_, ?_, ?_, ?_, ?_, ?_, ?_⟩
  · unfold fetch_unanswered_emails handleEmailErrors
    by_cases hc : (!c && !co) = true <;> simp only [FetchEnv.connected, FetchEnv.connectOk] at hc ⊢
    · simp [hc]
    · rw [if_neg (by simp_all)]
      cases fetchTry h2t ownAddress ⟨c, co, gc, si, se, fm, ff⟩ maxResults <;> simp
  · intro hc hco
    subst hc
    subst hco
    simp [fetch_unanswered_emails, handleEmailErrors]
  · intro e hgc
    simp only at hgc
    subst hgc
    unfold fetch_unanswered_emails handleEmailErrors fetchTry
    by_cases hc : (!c && !co) = true <;> simp [hc]
  · intro e hsi
    simp only at hsi
    subst hsi
    unfold fetch_unanswered_emails handleEmailErrors fetchTry
    cases gc with
    | exc e2 => by_cases hc : (!c && !co) = true <;> simp [hc]
    | ok u => by_cases hc : (!c && !co) = true <;> simp [hc]
  · intro e hse
    simp only at hse
    subst hse
    unfold fetch_unanswered_emails handleEmailErrors fetchTry
    cases gc with
    | exc e2 => by_cases hc : (!c && !co) = true <;> simp [hc]
    | ok u =>
      cases si with
      | exc e3 => by_cases hc : (!c && !co) = true <;> simp [hc]
      | ok v => by_cases hc : (!c && !co) = true <;> simp [hc]
  · intro status messages0 hse hst
    simp only at hse
    subst hse
    unfold fetch_unanswered_emails handleEmailErrors fetchTry
    cases gc with
    | exc e2 => by_cases hc : (!c && !co) = true <;> simp [hc]
    | ok u =>
      cases si with
      | exc e3 => by_cases hc : (!c && !co) = true <;> simp [hc]
      | ok v => by_cases hc : (!c && !co) = true <;> simp [hc, hst]
  · intro status hse
    simp only at hse
    subst hse
    unfold fetch_unanswered_emails handleEmailErrors fetchTry
    cases gc with
    | exc e2 => by_cases hc : (!c && !co) = true <;> simp [hc]
    | ok u =>
      cases si with
      | exc e3 => by_cases hc : (!c && !co) = true <;> simp [hc]
      | ok v =>
        by_cases hc : (!c && !co) = true <;>
          by_cases hst : status = "OK" <;> simp [hc, hst]

/-- C10: with max_results = 0 the negative-index slice keeps the whole id
list (Python -0 is 0), so a successful search is processed in full: the
fetch returns the decode-and-filter pass over every matched id, most
recent first, not an empty batch. -/
theorem C10_zero_max_results_no_limit (h2t : String → String)
    (ownAddress : String) (env : FetchEnv) (messages0 : String)
    (hconn : env.connected = true)
    (hgc : env.getConn = .ok ())
    (hsi : env.selectInbox = .ok ())
    (hse : env.search = .ok ("OK", messages0))
    (hms : messages0 ≠ "") :
    fetch_unanswered_emails h2t ownAddress env 0 =
      some (processIds h2t ownAddress env (pySplitWs messages0).reverse) ∧
    pyNegSlice (pySplitWs messages0) 0 = pySplitWs messages0 := by
  refine ⟨?_, by simp [pyNegSlice]⟩
  unfold fetch_unanswered_emails handleEmailErrors fetchTry
  rw [if_neg (by simp [hconn])]
  rw [hgc, hsi, hse]
  simp [hms, pyNegSlice]

/-- A concrete fetch environment: connected, healthy session, a search
that matched three ids. -/
def fetchEnvThreeIds : FetchEnv :=
  { connected := true
    connectOk := true
    getConn := .ok ()
    selectInbox := .ok ()
    search := .ok ("OK", "1 2 3")
    fetchMsg := fun _ =>
      .ok (some ⟨[("Message-ID", "<a@x>")], .single "text/plain" (some "hi") "hi"⟩)
    freshFor := fun _ => "u" }

/-- C10 witnessed on the concrete three-id environment. -/
theorem C10_zero_max_results_witness :
    fetch_unanswered_emails (fun s => s) "me@x.com" fetchEnvThreeIds 0 =
      some (processIds (fun s => s) "me@x.com" fetchEnvThreeIds
        (pySplitWs "1 2 3").reverse) ∧
    pyNegSlice (pySplitWs "1 2 3") 0 = pySplitWs "1 2 3" :=
  C10_zero_max_results_no_limit (fun s => s) "me@x.com" fetchEnvThreeIds
    "1 2 3" rfl rfl rfl rfl (by decide)

/-! Claims about draft creation. -/

/-- create_draft_reply reports true exactly when the whole path ran and
the append returned the explicit OK status: the client was connected or
could connect, the pooled session was acquired, some folder was selected
by the fallback chain, and the append to that folder answered OK. -/
theorem create_draft_reply_true_iff (parseAddr : String → String × String)
    (initialEmail : Email) (replyText ownAddress configuredDrafts : String)
    (env : DraftEnv) :
    create_draft_reply parseAddr initialEmail replyText ownAddress
        configuredDrafts env = some true ↔
      ((env.connected = true ∨ env.connectOk = true) ∧
        env.getConn = .ok () ∧
        ∃ f, chooseDraftsFolder env configuredDrafts = .ok f ∧
          env.append f = .ok "OK") := by
  obtain ⟨msg, hmsg⟩ := create_reply_message_draft_total parseAddr initialEmail
    replyText ownAddress ""
  unfold create_draft_reply handleEmailErrors
  by_cases hc : (!env.connected && !env.connectOk) = true
  · rw [if_pos hc]
    simp only [Bool.and_eq_true, Bool.not_eq_true'] at hc
    simp [hc.1, hc.2]
  · rw [if_neg hc]
    have hcor : env.connected = true ∨ env.connectOk = true := by
      rcases Bool.eq_false_or_eq_true env.connected with h1 | h1
      · exact Or.inl h1
      · rcases Bool.eq_false_or_eq_true env.connectOk with h2 | h2
        · exact Or.inr h2
        · exact absurd (by rw [h1, h2]; rfl) hc
    rw [hmsg]
    cases hgc : env.getConn with
    | exc e => simp [hgc, hcor]
    | ok u =>
      cases u
      cases hch : chooseDraftsFolder env configuredDrafts with
      | exc e => simp [hgc, hch, hcor]
      | ok f =>
        cases happ : env.append f with
        | exc e => simp [hgc, hch, happ, hcor]
        | ok status =>
          by_cases hst : status = "OK"
          · subst hst
            simp [hgc, hch, happ, hcor]
          · simp [hgc, hch, happ, hcor, hst]

/-- C6: create_draft_reply never raises and always reports a boolean; it
reports true exactly when the append answered the explicit OK status (so
any exception or non-OK status on the path yields false); the folder
fallback tries the configured folder first, then the fixed alternates in
their order, then the inbox as last resort; and in the spec's scenario —
configured folder selection failing, first alternate selectable, append
OK — the append target is the alternate and the result is true. -/
theorem C6_create_draft_reply (parseAddr : String → String × String)
    (initialEmail : Email) (replyText ownAddress configuredDrafts : String)
    (env : DraftEnv) :
    (∃ b, create_draft_reply parseAddr initialEmail replyText ownAddress
      configuredDrafts env = some b) ∧
    (create_draft_reply parseAddr initialEmail replyText ownAddress
        configuredDrafts env = some true ↔
      ((env.connected = true ∨ env.connectOk = true) ∧
        env.getConn = .ok () ∧
        ∃ f, chooseDraftsFolder env configuredDrafts = .ok f ∧
          env.append f = .ok "OK")) ∧
    (env.select configuredDrafts = .ok →
      chooseDraftsFolder env configuredDrafts = .ok configuredDrafts) ∧
    (env.select configuredDrafts = .imapErr →
      ((env.select "INBOX.Drafts" = .ok →
        chooseDraftsFolder env configuredDrafts = .ok "INBOX.Drafts") ∧
      (env.select "INBOX.Drafts" = .imapErr →
        env.select "[Gmail]/Drafts" = .ok →
        chooseDraftsFolder env configuredDrafts = .ok "[Gmail]/Drafts") ∧
      (env.select "INBOX.Drafts" = .imapErr →
        env.select "[Gmail]/Drafts" = .imapErr → env.select "Draft" = .ok →
        chooseDraftsFolder env configuredDrafts = .ok "Draft") ∧
      (env.select "INBOX.Drafts" = .imapErr →
        env.select "[Gmail]/Drafts" = .imapErr → env.select "Draft" = .imapErr →
        env.select "INBOX" = .ok →
        chooseDraftsFolder env configuredDrafts = .ok "INBOX"))) ∧
    (env.select configuredDrafts = .imapErr →
      env.select "INBOX.Drafts" = .ok →
      (env.connected = true ∨ env.connectOk = true) →
      env.getConn = .ok () → env.append "INBOX.Drafts" = .ok "OK" →
      chooseDraftsFolder env configuredDrafts = .ok "INBOX.Drafts" ∧
      create_draft_reply parseAddr initialEmail replyText ownAddress
        configuredDrafts env = some true) := by
  refine ⟨?_, create_draft_reply_true_iff parseAddr initialEmail replyText
    ownAddress configuredDrafts env, ?_, ?_, ?_⟩
  · obtain ⟨msg, hmsg⟩ := create_reply_message_draft_total parseAddr initialEmail
      replyText ownAddress ""
    unfold create_draft_reply handleEmailErrors
    by_cases hc : (!env.connected && !env.connectOk) = true
    · rw [if_pos hc]
      exact ⟨false, rfl⟩
    · rw [if_neg hc, hmsg]
      cases hgc : env.getConn with
      | exc e => exact ⟨false, by rfl⟩
      | ok u =>
        cases u
        cases hch : chooseDraftsFolder env configuredDrafts with
        | exc e => exact ⟨false, by rfl⟩
        | ok f =>
          cases happ : env.append f with
          | exc e => exact ⟨false, by simp [happ]⟩
          | ok status => exact ⟨decide (status = "OK"), by simp [happ]⟩
  · intro hsel
    simp [chooseDraftsFolder, hsel]
  · intro hsel
    refine ⟨?_, ?_, ?_, ?_⟩
    · intro h1
      simp [chooseDraftsFolder, tryAltFolders, hsel, h1]
    · intro h1 h2
      simp [chooseDraftsFolder, tryAltFolders, hsel, h1, h2]
    · intro h1 h2 h3
      simp [chooseDraftsFolder, tryAltFolders, hsel, h1, h2, h3]
    · intro h1 h2 h3 h4
      simp [chooseDraftsFolder, tryAltFolders, hsel, h1, h2, h3, h4]
  · intro hsel halt hcor hgc happ
    have hch : chooseDraftsFolder env configuredDrafts = .ok "INBOX.Drafts" := by
      simp [chooseDraftsFolder, tryAltFolders, hsel, halt]
    exact ⟨hch, (create_draft_reply_true_iff parseAddr initialEmail replyText
      ownAddress configuredDrafts env).mpr ⟨hcor, hgc, "INBOX.Drafts", hch, happ⟩⟩

end AutoEmail
